import Mathlib

/-!
Shallow embedding of the bg-removal-service repository
(`src/app.py`, `src/model_loader.py`) and verification of its
specification claims.

The service is a thin HTTP shim: `app.py` validates uploads and maps
errors to HTTP statuses; `model_loader.py` normalizes the image
(decode, bounded resize, mode coercion to RGB), calls the external
segmentation model as an opaque `bytes -> bytes` function, and coerces
the model output to an RGBA PNG.

Modelling conventions:
- Python exceptions become `Except String` (the string is the message);
  FastAPI `HTTPException` values become an `HTTPError` record.
- Rasters are `Img` records; the PIL operations the source uses
  (`Image.open`, `resize`, `convert`, `paste` with an alpha mask,
  `save(format=PNG)`) are modelled per their library semantics for the
  color modes involved.  Lanczos resampling's pixel arithmetic is
  abstracted (a sampling placeholder); its size behavior and its
  zero-dimension `ValueError` are modelled exactly, since only those
  are claim-relevant.
- Python float arithmetic in the resize (`ratio = 2048 / m`;
  `int(d * ratio)`) is modelled as exact rational arithmetic with
  truncation, i.e. `d * 2048 / m` in natural-number division.
- Byte strings are an inductive: either a PNG/JPEG encoding of an
  image, or opaque non-image bytes; the declared length is carried
  separately since encoders' byte counts are not modelled (no claim
  depends on them).
-/

/-- Color modes of the image library relevant to this service.
`P t` is a palette image; `t = some i` means palette index `i` is the
transparency index (palette-with-transparency), `t = none` means no
transparency info. -/
inductive Mode
  | RGB
  | RGBA
  | L
  | LA
  | P (t : Option Nat)
  deriving DecidableEq, Repr

/-- Pixel values, one constructor per storage layout. -/
inductive Px
  | rgb (r g b : Nat)
  | rgba (r g b a : Nat)
  | l (v : Nat)
  | la (v a : Nat)
  | pal (idx : Nat)
  deriving DecidableEq, Repr

/-- A decoded raster: color mode, dimensions, pixel accessor, and the
palette table (meaningful only for `P` mode). -/
structure Img where
  mode : Mode
  width : Nat
  height : Nat
  px : Nat → Nat → Px
  palette : Nat → Nat × Nat × Nat

/-- Does the mode carry transparency information (the spec's "has a
transparency channel"): RGBA, LA, and palette-with-transparency. -/
def Mode.hasTransparency : Mode → Bool
  | .RGBA => true
  | .LA => true
  | .P t => t.isSome
  | _ => false

/-- Whether a stored pixel value matches the declared mode's layout. -/
def Px.matchesMode : Px → Mode → Bool
  | .rgb _ _ _, .RGB => true
  | .rgba _ _ _ _, .RGBA => true
  | .l _, .L => true
  | .la _ _, .LA => true
  | .pal _, .P _ => true
  | _, _ => false

/-- Well-formed image: every pixel value has the layout of the mode. -/
def Img.wf (i : Img) : Prop :=
  ∀ x y, (i.px x y).matchesMode i.mode = true

/-- Integer blend primitive of the image library, the C macro
`MULDIV255(a, b, tmp) = (tmp = a*b + 128, ((tmp >> 8) + tmp) >> 8)`. -/
def muldiv255 (a b : Nat) : Nat :=
  let t := a * b + 128
  (t / 256 + t) / 256

/-- Channel blend used by `paste` with an 8-bit mask:
`BLEND(mask, under, over) = MULDIV255(under, 255 - mask) + MULDIV255(over, mask)`. -/
def blendChannel (mask under over : Nat) : Nat :=
  muldiv255 under (255 - mask) + muldiv255 over mask

/-- Pixel-level view of `convert('RGB')`: alpha is dropped (not
composited), grayscale is replicated, palette indices are looked up
(transparency info discarded). -/
def pxToRGB (img : Img) : Nat → Nat → Px := fun x y =>
  match img.px x y with
  | .rgb r g b => .rgb r g b
  | .rgba r g b _ => .rgb r g b
  | .l v => .rgb v v v
  | .la v _ => .rgb v v v
  | .pal i =>
      match img.palette i with
      | (r, g, b) => .rgb r g b

/-- The library's `convert('RGB')`. -/
def Img.convertRGB (img : Img) : Img :=
  { img with mode := .RGB, px := pxToRGB img }

/-- Pixel-level view of `convert('RGBA')`: opaque alpha is added to
alpha-free modes; LA keeps its alpha; a palette transparency index maps
to alpha 0, other palette entries to alpha 255. -/
def pxToRGBA (img : Img) : Nat → Nat → Px := fun x y =>
  match img.px x y with
  | .rgb r g b => .rgba r g b 255
  | .rgba r g b a => .rgba r g b a
  | .l v => .rgba v v v 255
  | .la v a => .rgba v v v a
  | .pal i =>
      match img.palette i with
      | (r, g, b) =>
          match img.mode with
          | .P (some t) => .rgba r g b (if i = t then 0 else 255)
          | _ => .rgba r g b 255

/-- The library's `convert('RGBA')`. -/
def Img.convertRGBA (img : Img) : Img :=
  { img with mode := .RGBA, px := pxToRGBA img }

/-- The source's RGBA branch (model_loader.py lines 80-83): a new white
RGB image, then `paste(image, mask = alpha band)`, which blends each
channel of the pasted image (converted to RGB, alpha dropped) with the
white background using the alpha value as mask. -/
def whitePasteRGBA (img : Img) : Img :=
  { img with
    mode := .RGB
    px := fun x y =>
      match img.px x y with
      | .rgba r g b a =>
          .rgb (blendChannel a 255 r) (blendChannel a 255 g) (blendChannel a 255 b)
      | p => p }

/-- New dimensions of the resize branch (model_loader.py lines 72-73):
`ratio = 2048 / m`, `new_size = (int(w * ratio), int(h * ratio))`; in
exact arithmetic truncation gives `d * 2048 / m` in Nat division. -/
def newSize (w h : Nat) : Nat × Nat :=
  let m := max w h
  (w * 2048 / m, h * 2048 / m)

/-- The library's `resize(new_size, LANCZOS)`: fails with the
resampler's `ValueError` when a requested dimension is zero; otherwise
produces an image with the new dimensions and the same mode (resampled
pixel values abstracted as a sampling of the original). -/
def Img.resize (img : Img) (nw nh : Nat) : Except String Img :=
  if nw = 0 ∨ nh = 0 then
    .error "height and width must be > 0"
  else
    .ok { img with
          width := nw
          height := nh
          px := fun x y => img.px (x * img.width / nw) (y * img.height / nh) }

/-- Byte-string contents: a PNG or JPEG encoding of a raster, or opaque
bytes that no decoder accepts. -/
inductive ByteData
  | png (img : Img)
  | jpeg (img : Img)
  | junk (seed : Nat)

/-- Byte strings: declared length plus contents.  The length is only
inspected by the upload size check; encoders' output lengths are not
modelled. -/
structure Bytes where
  length : Nat
  data : ByteData

/-- The library's `Image.open(BytesIO(data))`: decodes an encoded
raster, fails on non-image bytes. -/
def decodeImage (b : Bytes) : Except String Img :=
  match b.data with
  | .png i => .ok i
  | .jpeg i => .ok i
  | .junk _ => .error "cannot identify image file"

/-- The library's `save(buffer, format=PNG)` followed by reading the
buffer back (byte length not modelled). -/
def encodePNG (img : Img) : Bytes :=
  ⟨0, .png img⟩

/-- Resize step of `BackgroundRemover.remove_background`
(model_loader.py lines 69-75): downscale only when the longer side
exceeds 2048. -/
def resizeStep (image : Img) : Except String Img :=
  if max image.width image.height > 2048 then
    image.resize (newSize image.width image.height).1 (newSize image.width image.height).2
  else
    .ok image

/-- Mode-coercion step of `BackgroundRemover.remove_background`
(model_loader.py lines 77-85): RGBA is pasted onto white; every other
non-RGB mode goes through `convert('RGB')`. -/
def convertStep (image : Img) : Img :=
  if image.mode ≠ .RGB then
    if image.mode = .RGBA then whitePasteRGBA image else image.convertRGB
  else
    image

/-- Image normalization phase of `remove_background` (model_loader.py
lines 62-85): decode, bounded resize, coercion to RGB. -/
def normalizeImg (imageData : Bytes) : Except String Img := do
  let image ← decodeImage imageData
  let image ← resizeStep image
  pure (convertStep image)

/-- Output-adaptation phase of `remove_background` (model_loader.py
lines 95-107): decode the model's output, coerce to RGBA if needed,
re-encode as PNG. -/
def adaptOutput (outputBytes : Bytes) : Except String Bytes := do
  let outputImage ← decodeImage outputBytes
  let outputImage :=
    if outputImage.mode ≠ .RGBA then outputImage.convertRGBA else outputImage
  pure (encodePNG outputImage)

/-- `BackgroundRemover.remove_background` (model_loader.py lines
52-111), parameterized by the external model (`rembg.remove`) as an
opaque bytes-to-bytes function; any failure is wrapped in
`RuntimeError("Failed to remove background: ...")`. -/
def removeBackground (model : Bytes → Bytes) (imageData : Bytes) : Except String Bytes :=
  match (do
      let image ← normalizeImg imageData
      let inputBytes := encodePNG image
      let outputBytes := model inputBytes
      adaptOutput outputBytes : Except String Bytes) with
  | .ok r => .ok r
  | .error e => .error ("Failed to remove background: " ++ e)

/-- FastAPI `HTTPException`: status code plus detail message. -/
structure HTTPError where
  status : Nat
  detail : String
  deriving DecidableEq, Repr

/-- A Python exception in the handler's try block: either an
HTTP-style error or a plain exception with its message. -/
inductive PyExc
  | http (e : HTTPError)
  | exc (msg : String)
  deriving DecidableEq, Repr

/-- Successful response of `POST /remove-bg` (app.py lines 120-127). -/
structure Resp where
  status : Nat
  mediaType : String
  body : Bytes
  contentDisposition : String

/-- Allowed declared content types (app.py line 92). -/
def allowedTypes : List String := ["image/jpeg", "image/png", "image/jpg"]

/-- Upload size limit (app.py line 103): `10 * 1024 * 1024`. -/
def maxSize : Nat := 10 * 1024 * 1024

/-- Body of the handler's try block (app.py lines 98-127): the size
check raises an HTTP-style 400; processing failures are plain
exceptions. -/
def tryBody (model : Bytes → Bytes) (imageData : Bytes) : Except PyExc Bytes :=
  if imageData.length > maxSize then
    .error (.http ⟨400,
      "File too large. Maximum size is 10MB. Got: " ++ toString imageData.length ++ " bytes"⟩)
  else
    match removeBackground model imageData with
    | .ok r => .ok r
    | .error e => .error (.exc e)

/-- `POST /remove-bg` handler (app.py lines 74-136): 503 when the
global remover is absent, 400 on a disallowed content type, then the
try block with `except HTTPException: raise` and a generic
`except Exception` mapped to 500. -/
def handleRemoveBg (bgRemover : Option (Bytes → Bytes)) (contentType : String)
    (imageData : Bytes) : Except HTTPError Resp :=
  match bgRemover with
  | none =>
      .error ⟨503, "Background removal service is not available. Model not loaded."⟩
  | some model =>
      if contentType ∉ allowedTypes then
        .error ⟨400, "Invalid file type. Only JPG and PNG are supported. Got: " ++ contentType⟩
      else
        match tryBody model imageData with
        | .ok png =>
            .ok ⟨200, "image/png", png, "attachment; filename=\"bgremoved.png\""⟩
        | .error (.http e) => .error e
        | .error (.exc m) => .error ⟨500, "Failed to process image: " ++ m⟩

/-- Response of `GET /health` (app.py lines 64-71). -/
structure HealthResp where
  status : Nat
  statusField : String
  modelLoaded : Bool
  service : String
  deriving DecidableEq, Repr

/-- `GET /health` handler: always succeeds with a fixed service string
and `model_loaded = (bg_remover is not None)`. -/
def healthCheck (bgRemover : Option (Bytes → Bytes)) : HealthResp :=
  ⟨200, "healthy", bgRemover.isSome, "u2net-background-removal"⟩

/-- Startup event (app.py lines 43-53): sets the global remover. -/
def startupEvent (model : Bytes → Bytes) (_st : Option (Bytes → Bytes)) :
    Option (Bytes → Bytes) :=
  some model

/-- Shutdown event (app.py lines 56-61): clears the global remover. -/
def shutdownEvent (_st : Option (Bytes → Bytes)) : Option (Bytes → Bytes) :=
  none

/-- Boolean success test for `Except`. -/
def exceptOk : Except ε α → Bool
  | .ok _ => true
  | .error _ => false

/-- Modelled from the spec (section 4.1, step 3): the spec's
mode-coercion rule, for comparison with `convertStep` — ANY mode with a
transparency channel is composited onto an opaque white background
using the transparency channel as blend weight. -/
def pxWeight (img : Img) (x y : Nat) : Nat :=
  match img.px x y with
  | .rgba _ _ _ a => a
  | .la _ a => a
  | .pal i =>
      match img.mode with
      | .P (some t) => if i = t then 0 else 255
      | _ => 255
  | _ => 255

/-- Modelled from the spec (section 4.1, step 3): white compositing of
an arbitrary transparency-carrying image, the spec's "composite the
image onto an opaque white background using the transparency channel as
blend weight". -/
def specWhiteComposite (img : Img) : Img :=
  { img with
    mode := .RGB
    px := fun x y =>
      let a := pxWeight img x y
      match pxToRGB img x y with
      | .rgb r g b =>
          .rgb (blendChannel a 255 r) (blendChannel a 255 g) (blendChannel a 255 b)
      | p => p }

/-- Modelled from the spec (section 4.1, step 3): the spec's wording of
the whole conversion step. -/
def specConvertStep (img : Img) : Img :=
  if img.mode = .RGB then img
  else if img.mode.hasTransparency then specWhiteComposite img
  else img.convertRGB

/-! Concrete images and models used as evaluation points. -/

/-- Trivial palette (all black), for images that never consult it. -/
def pal0 : Nat → Nat × Nat × Nat := fun _ => (0, 0, 0)

/-- A 1x1 LA image, fully transparent black: a mode with a transparency
channel that is not RGBA. -/
def laImg : Img := ⟨.LA, 1, 1, fun _ _ => .la 0 0, pal0⟩

/-- PNG bytes of `laImg`. -/
def laBytes : Bytes := ⟨20, .png laImg⟩

/-- A 4096x1024 RGB image, above the resize bound. -/
def bigImg : Img := ⟨.RGB, 4096, 1024, fun _ _ => .rgb 0 0 0, pal0⟩

/-- JPEG bytes of `bigImg`. -/
def bigBytes : Bytes := ⟨100, .jpeg bigImg⟩

/-- The resized form of `bigImg`: 2048x512. -/
def bigResized : Img :=
  { bigImg with
    width := 2048
    height := 512
    px := fun x y => bigImg.px (x * bigImg.width / 2048) (y * bigImg.height / 512) }

/-- A 4097x1 RGB image: extreme aspect ratio whose scaled height
truncates to zero. -/
def thinImg : Img := ⟨.RGB, 4097, 1, fun _ _ => .rgb 0 0 0, pal0⟩

/-- PNG bytes of `thinImg`. -/
def thinBytes : Bytes := ⟨50, .png thinImg⟩

/-- A 4097x1 RGBA image, used as a hostile model output. -/
def thinRGBA : Img := ⟨.RGBA, 4097, 1, fun _ _ => .rgba 0 0 0 255, pal0⟩

/-- A 1x1 RGB image, below every bound. -/
def smallImg : Img := ⟨.RGB, 1, 1, fun _ _ => .rgb 9 9 9, pal0⟩

/-- PNG bytes of `smallImg`. -/
def smallBytes : Bytes := ⟨10, .png smallImg⟩

/-- A 1x1 grayscale image. -/
def lImg : Img := ⟨.L, 1, 1, fun _ _ => .l 7, pal0⟩

/-- A 1x1 RGBA image. -/
def rgbaImg : Img := ⟨.RGBA, 1, 1, fun _ _ => .rgba 1 2 3 4, pal0⟩

/-- A model that returns a PNG with extreme aspect ratio. -/
def evilModel : Bytes → Bytes := fun _ => ⟨0, .png thinRGBA⟩

/-- A model that returns undecodable bytes. -/
def junkModel : Bytes → Bytes := fun _ => ⟨0, .junk 0⟩

/-- A model that returns a well-behaved RGBA PNG. -/
def goodModel : Bytes → Bytes := fun _ => ⟨0, .png rgbaImg⟩

/-- Alpha component of a stored RGBA pixel (255 for other layouts). -/
def pxAlphaValue : Px → Nat
  | .rgba _ _ _ a => a
  | _ => 255

/-! Reduction lemmas for the Except monad (definitional, stated for simp). -/

/-- Bind on a successful Except reduces to the continuation. -/
theorem exceptBindOk (a : α) (f : α → Except ε β) :
    (Except.ok a : Except ε α) >>= f = f a := rfl

/-- Bind on a failed Except keeps the error. -/
theorem exceptBindErr (e : ε) (f : α → Except ε β) :
    (Except.error e : Except ε α) >>= f = .error e := rfl

/-- Pure in the Except monad is `ok`. -/
theorem exceptPureEq (a : α) : (pure a : Except ε α) = .ok a := rfl

/-- The conversion step never changes dimensions. -/
theorem convertStep_size (j : Img) :
    (convertStep j).width = j.width ∧ (convertStep j).height = j.height := by
  unfold convertStep
  split
  · split
    · exact ⟨rfl, rfl⟩
    · exact ⟨rfl, rfl⟩
  · exact ⟨rfl, rfl⟩

/-! Claim theorems. -/

/-- C6: whenever the model lifecycle holder is not Ready (no model
handle: before startup or after shutdown), every POST /remove-bg
request returns 503 with the "not available" message, for every content
type and body — i.e. before any validation runs, and no request is
served outside the Ready state. -/
theorem C6_not_ready_503 (contentType : String) (imageData : Bytes) :
    handleRemoveBg none contentType imageData =
      .error ⟨503, "Background removal service is not available. Model not loaded."⟩ ∧
    handleRemoveBg (shutdownEvent (some goodModel)) contentType imageData =
      .error ⟨503, "Background removal service is not available. Model not loaded."⟩ :=
  ⟨rfl, rfl⟩

/-- C8: GET /health always returns 200 with the fixed service string
and `model_loaded = (bg_remover is not None)`: false before
initialization and after shutdown, true after startup; the handler
result never depends on the model function itself. -/
theorem C8_health_check (st : Option (Bytes → Bytes)) (model : Bytes → Bytes) :
    healthCheck st = ⟨200, "healthy", st.isSome, "u2net-background-removal"⟩ ∧
    (healthCheck none).modelLoaded = false ∧
    (healthCheck (shutdownEvent st)).modelLoaded = false ∧
    (healthCheck (startupEvent model st)).modelLoaded = true ∧
    (∀ f g : Bytes → Bytes, healthCheck (some f) = healthCheck (some g)) :=
  ⟨rfl, rfl, rfl, rfl, fun _ _ => rfl⟩

/-- C10: the truncating resize maps a 4097x1 image to the degenerate
size (2048, 0), so normalization of this decodable image raises the
resampler's error and the request is answered with 500. -/
theorem C10_zero_dimension :
    newSize 4097 1 = (2048, 0) ∧
    decodeImage thinBytes = .ok thinImg ∧
    normalizeImg thinBytes = .error "height and width must be > 0" ∧
    handleRemoveBg (some goodModel) "image/png" thinBytes =
      .error ⟨500,
        "Failed to process image: Failed to remove background: height and width must be > 0"⟩ :=
  ⟨rfl, rfl, rfl, rfl⟩

/-- C3: with the model loaded, a request whose declared content type is
outside the allowed set is answered 400 with the rejected content type
in the message, and the outcome does not depend on the model at all
(the pipeline is never invoked). -/
theorem C3_bad_content_type (model : Bytes → Bytes) (contentType : String)
    (imageData : Bytes) (hct : contentType ∉ allowedTypes) :
    handleRemoveBg (some model) contentType imageData =
      .error ⟨400, "Invalid file type. Only JPG and PNG are supported. Got: " ++ contentType⟩ ∧
    ∀ other : Bytes → Bytes,
      handleRemoveBg (some other) contentType imageData =
        handleRemoveBg (some model) contentType imageData := by
  have h : ∀ f : Bytes → Bytes,
      handleRemoveBg (some f) contentType imageData =
        .error ⟨400, "Invalid file type. Only JPG and PNG are supported. Got: " ++ contentType⟩ := by
    intro f
    simp [handleRemoveBg, hct]
  exact ⟨h model, fun other => (h other).trans (h model).symm⟩

/-- C3 witness: a text/plain upload is rejected with 400. -/
theorem C3_bad_content_type_witness :
    handleRemoveBg (some goodModel) "text/plain" smallBytes =
      .error ⟨400, "Invalid file type. Only JPG and PNG are supported. Got: " ++ "text/plain"⟩ :=
  (C3_bad_content_type goodModel "text/plain" smallBytes (by decide)).1

/-- C4: with the model loaded and an allowed content type, a body
longer than 10485760 bytes is answered 400 with the actual byte length
in the message, and the outcome does not depend on the model at all
(the pipeline is never invoked). -/
theorem C4_oversized_400 (model : Bytes → Bytes) (contentType : String)
    (imageData : Bytes) (hct : contentType ∈ allowedTypes)
    (hlen : imageData.length > 10 * 1024 * 1024) :
    handleRemoveBg (some model) contentType imageData =
      .error ⟨400, "File too large. Maximum size is 10MB. Got: " ++
        toString imageData.length ++ " bytes"⟩ ∧
    ∀ other : Bytes → Bytes,
      handleRemoveBg (some other) contentType imageData =
        handleRemoveBg (some model) contentType imageData := by
  have h : ∀ f : Bytes → Bytes,
      handleRemoveBg (some f) contentType imageData =
        .error ⟨400, "File too large. Maximum size is 10MB. Got: " ++
          toString imageData.length ++ " bytes"⟩ := by
    intro f
    simp [handleRemoveBg, tryBody, not_not_intro hct, maxSize, hlen]
  exact ⟨h model, fun other => (h other).trans (h model).symm⟩

/-- C4 witness: a 10485761-byte body is rejected with 400 naming the
length. -/
theorem C4_oversized_400_witness :
    handleRemoveBg (some goodModel) "image/png" ⟨10485761, .junk 0⟩ =
      .error ⟨400, "File too large. Maximum size is 10MB. Got: " ++
        toString (Bytes.mk 10485761 (.junk 0)).length ++ " bytes"⟩ :=
  (C4_oversized_400 goodModel "image/png" ⟨10485761, .junk 0⟩ (by decide) (by decide)).1

/-- C1 counterexample: `laImg` is a decodable image whose mode (LA) has
a transparency channel, yet the normalizer converts it by the standard
mode conversion (yielding black, since the pixel is transparent black)
instead of compositing onto white (which would yield white): the claim
that every transparency-carrying mode is white-composited is false. -/
theorem C1_counterexample :
    laImg.mode.hasTransparency = true ∧
    (normalizeImg laBytes).map (fun i => (i.mode, i.px 0 0)) =
      .ok (Mode.RGB, Px.rgb 0 0 0) ∧
    ((specConvertStep laImg).mode, (specConvertStep laImg).px 0 0) =
      (Mode.RGB, Px.rgb 255 255 255) ∧
    Px.rgb 0 0 0 ≠ Px.rgb 255 255 255 :=
  ⟨rfl, rfl, rfl, by decide⟩

/-- C1 (amended): the normalizer white-composites exactly the RGBA
mode; every other non-RGB mode — including the transparency-carrying
modes LA and palette-with-transparency — is converted by the standard
mode conversion, and RGB passes through. -/
theorem C1_rgba_only_composite (b : Bytes) (i j : Img)
    (hdec : decodeImage b = .ok i) (hres : resizeStep i = .ok j) :
    normalizeImg b = .ok (convertStep j) ∧
    (j.mode = Mode.RGBA → convertStep j = whitePasteRGBA j) ∧
    (j.mode ≠ Mode.RGB → j.mode ≠ Mode.RGBA → convertStep j = j.convertRGB) ∧
    (j.mode = Mode.RGB → convertStep j = j) := by
  refine ⟨?_, ?_, ?_, ?_⟩
  · simp [normalizeImg, hdec, hres, exceptBindOk, exceptPureEq]
  · intro h
    simp [convertStep, h]
  · intro h1 h2
    simp [convertStep, h1, h2]
  · intro h
    simp [convertStep, h]

/-- C1 witness: on the LA image the conversion step is the standard
mode conversion. -/
theorem C1_rgba_only_composite_witness :
    convertStep laImg = laImg.convertRGB :=
  (C1_rgba_only_composite laBytes laImg laImg rfl rfl).2.2.1 (by decide) (by decide)

/-- C7: with the model loaded, an allowed content type and an in-bound
body, a processing failure message `e` is mapped to 500 with `e`
embedded in the detail, while the HTTP-style 400 raised inside the try
block by the size check propagates with its status unchanged. -/
theorem C7_error_mapping (model : Bytes → Bytes) (contentType : String)
    (imageData : Bytes) (hct : contentType ∈ allowedTypes)
    (hlen : imageData.length ≤ maxSize) :
    (∀ e, removeBackground model imageData = .error e →
      handleRemoveBg (some model) contentType imageData =
        .error ⟨500, "Failed to process image: " ++ e⟩) ∧
    (∀ oversized : Bytes, oversized.length > maxSize →
      handleRemoveBg (some model) contentType oversized =
        .error ⟨400, "File too large. Maximum size is 10MB. Got: " ++
          toString oversized.length ++ " bytes"⟩) := by
  constructor
  · intro e he
    simp [handleRemoveBg, tryBody, not_not_intro hct, Nat.not_lt.mpr hlen, he]
  · intro oversized hbig
    simp [handleRemoveBg, tryBody, not_not_intro hct, hbig]

/-- C7 witness: a model yielding undecodable bytes makes the request
fail with 500 and the wrapped failure description. -/
theorem C7_error_mapping_witness :
    handleRemoveBg (some junkModel) "image/png" smallBytes =
      .error ⟨500, "Failed to process image: " ++
        "Failed to remove background: cannot identify image file"⟩ :=
  (C7_error_mapping junkModel "image/png" smallBytes (by decide) (by decide)).1
    "Failed to remove background: cannot identify image file" rfl

/-- Every successful remove_background call returns the PNG re-encoding
of an RGBA-mode image: the bytes decode, and decode to mode RGBA. -/
theorem removeBackground_ok_rgba (model : Bytes → Bytes) (b res : Bytes)
    (hok : removeBackground model b = .ok res) :
    exceptOk (decodeImage res) = true ∧
    ∀ i, decodeImage res = .ok i → i.mode = Mode.RGBA := by
  unfold removeBackground at hok
  cases hn : normalizeImg b with
  | error e =>
      rw [hn] at hok
      simp [exceptBindErr] at hok
  | ok image =>
      rw [hn] at hok
      rw [exceptBindOk] at hok
      unfold adaptOutput at hok
      cases hd : decodeImage (model (encodePNG image)) with
      | error e =>
          simp [hd, exceptBindErr] at hok
      | ok oi =>
          simp only [hd, exceptBindOk, exceptPureEq] at hok
          simp at hok
          rw [← hok]
          refine ⟨rfl, ?_⟩
          intro i hi
          simp [decodeImage, encodePNG] at hi
          rw [← hi]
          by_cases hmode : oi.mode = Mode.RGBA
          · simp [hmode]
          · simp [hmode, Img.convertRGBA]

/-- Normalization succeeds on any decodable image whose truncating
resize does not request a zero dimension (in particular on any image
already within the 2048 bound); the conversion step is total. -/
theorem normalizeImg_ok (b : Bytes) (i : Img) (hdec : decodeImage b = .ok i)
    (h : max i.width i.height ≤ 2048 ∨
      ((newSize i.width i.height).1 ≠ 0 ∧ (newSize i.width i.height).2 ≠ 0)) :
    exceptOk (normalizeImg b) = true := by
  unfold normalizeImg
  rw [hdec, exceptBindOk]
  unfold resizeStep
  by_cases hgt : max i.width i.height > 2048
  · rw [if_pos hgt]
    rcases h with h | ⟨h1, h2⟩
    · omega
    · unfold Img.resize
      rw [if_neg (not_or.mpr ⟨h1, h2⟩)]
      rfl
  · rw [if_neg hgt]
    rfl

/-- C5: bytes returned by a successful remove_background call always
decode as a 4-channel (RGBA) raster; any non-RGBA model output is
coerced via convert(RGBA); and for well-formed model outputs whose mode
carries no transparency, the added alpha channel is fully opaque. -/
theorem C5_adapter_rgba_output (model : Bytes → Bytes) (b res : Bytes)
    (hok : removeBackground model b = .ok res) :
    (exceptOk (decodeImage res) = true ∧
      ∀ i, decodeImage res = .ok i → i.mode = Mode.RGBA) ∧
    (∀ ob oi, decodeImage ob = .ok oi → oi.mode ≠ Mode.RGBA →
      adaptOutput ob = .ok (encodePNG oi.convertRGBA)) ∧
    (∀ oi : Img, oi.wf → oi.mode.hasTransparency = false →
      ∀ x y, pxAlphaValue ((Img.convertRGBA oi).px x y) = 255) := by
  refine ⟨removeBackground_ok_rgba model b res hok, ?_, ?_⟩
  · intro ob oi hd hne
    unfold adaptOutput
    rw [hd, exceptBindOk]
    simp [hne, exceptPureEq]
  · intro oi hwf htr x y
    have hm := hwf x y
    show pxAlphaValue (pxToRGBA oi x y) = 255
    unfold pxToRGBA
    cases hpx : oi.px x y with
    | rgb r g bc => simp [pxAlphaValue]
    | rgba r g bc a =>
        rw [hpx] at hm
        cases hmode : oi.mode <;> rw [hmode] at hm <;> simp [Px.matchesMode] at hm
        rw [hmode] at htr
        simp [Mode.hasTransparency] at htr
    | l v => simp [pxAlphaValue]
    | la v a =>
        rw [hpx] at hm
        cases hmode : oi.mode <;> rw [hmode] at hm <;> simp [Px.matchesMode] at hm
        rw [hmode] at htr
        simp [Mode.hasTransparency] at htr
    | pal idx =>
        rw [hpx] at hm
        cases hmode : oi.mode <;> rw [hmode] at hm <;> simp [Px.matchesMode] at hm
        rename_i t
        rw [hmode] at htr
        rcases hpal : oi.palette idx with ⟨r, g, bc⟩
        cases t with
        | none => simp [hpal, pxAlphaValue]
        | some tt => simp [Mode.hasTransparency] at htr

/-- C5 witness: the adapter output for a grayscale model output decodes
to RGBA with a fully opaque alpha at the origin. -/
theorem C5_adapter_rgba_output_witness :
    adaptOutput ⟨0, .png lImg⟩ = .ok (encodePNG lImg.convertRGBA) :=
  ((C5_adapter_rgba_output goodModel smallBytes (encodePNG rgbaImg) rfl).2.1)
    ⟨0, .png lImg⟩ lImg rfl (by decide)

/-- C9 counterexample: a model whose output is a 4097x1 RGBA PNG makes
remove_background succeed, yet feeding the returned bytes back into the
normalizer fails (the truncating resize requests height 0), so the
round-trip claim is false as universally stated. -/
theorem C9_counterexample :
    removeBackground evilModel smallBytes = .ok (encodePNG thinRGBA) ∧
    normalizeImg (encodePNG thinRGBA) = .error "height and width must be > 0" :=
  ⟨rfl, rfl⟩

/-- C9 (amended): bytes returned by a successful remove_background call
always decode (they are the adapter's RGBA PNG), and feeding them back
into the normalizer succeeds provided the decoded image does not force
the truncating resize to request a zero dimension — in particular
whenever its longer side is within the 2048 bound. -/
theorem C9_roundtrip_amended (model : Bytes → Bytes) (b res : Bytes)
    (hok : removeBackground model b = .ok res) :
    exceptOk (decodeImage res) = true ∧
    ∀ i, decodeImage res = .ok i →
      (max i.width i.height ≤ 2048 ∨
        ((newSize i.width i.height).1 ≠ 0 ∧ (newSize i.width i.height).2 ≠ 0)) →
      exceptOk (normalizeImg res) = true := by
  refine ⟨(removeBackground_ok_rgba model b res hok).1, ?_⟩
  intro i hi h
  exact normalizeImg_ok res i hi h

/-- C9 witness: a well-behaved 1x1 RGBA model output round-trips
through the normalizer. -/
theorem C9_roundtrip_amended_witness :
    exceptOk (normalizeImg (encodePNG rgbaImg)) = true :=
  (C9_roundtrip_amended goodModel smallBytes (encodePNG rgbaImg) rfl).2
    rgbaImg rfl (Or.inl (by decide))

/-- Truncating natural division is within one unit below the exact
rational quotient. -/
theorem div_trunc_bounds (a m : Nat) (hm : 0 < m) :
    ((a / m : Nat) : ℚ) ≤ (a : ℚ) / (m : ℚ) ∧
    (a : ℚ) / (m : ℚ) < ((a / m : Nat) : ℚ) + 1 := by
  have hmq : (0 : ℚ) < (m : ℚ) := by exact_mod_cast hm
  constructor
  · rw [le_div_iff₀ hmq]
    exact_mod_cast Nat.div_mul_le_self a m
  · rw [div_lt_iff₀ hmq]
    have h1 : a < (a / m + 1) * m := by
      have h2 := Nat.div_add_mod a m
      have h3 := Nat.mod_lt a hm
      calc a = m * (a / m) + a % m := h2.symm
        _ < m * (a / m) + m := Nat.add_lt_add_left h3 _
        _ = (a / m + 1) * m := by ring
    exact_mod_cast h1

/-- When the longer side exceeds 2048 and normalization succeeds, the
result carries exactly the truncated scaled dimensions. -/
theorem normalizeImg_resized_dims (b : Bytes) (i : Img)
    (hdec : decodeImage b = .ok i) (hgt : 2048 < max i.width i.height)
    (r : Img) (hr : normalizeImg b = .ok r) :
    r.width = i.width * 2048 / max i.width i.height ∧
    r.height = i.height * 2048 / max i.width i.height := by
  unfold normalizeImg at hr
  rw [hdec, exceptBindOk] at hr
  unfold resizeStep at hr
  rw [if_pos hgt] at hr
  unfold Img.resize at hr
  by_cases hz : (newSize i.width i.height).1 = 0 ∨ (newSize i.width i.height).2 = 0
  · rw [if_pos hz] at hr
    simp [exceptBindErr] at hr
  · rw [if_neg hz] at hr
    rw [exceptBindOk] at hr
    simp [exceptPureEq] at hr
    rw [← hr]
    constructor
    · rw [(convertStep_size _).1]
      simp [newSize]
    · rw [(convertStep_size _).2]
      simp [newSize]

/-- C2: a decoded image whose longer side is at most 2048 passes
through the normalizer with unchanged dimensions; when the longer side
exceeds 2048 and normalization succeeds, the output's longer side is
exactly 2048 and each dimension is within one pixel below the exact
aspect-preserving scaled value. -/
theorem C2_resize_bound (b : Bytes) (i : Img) (hdec : decodeImage b = .ok i) :
    (max i.width i.height ≤ 2048 →
      (normalizeImg b).map (fun r => (r.width, r.height)) = .ok (i.width, i.height)) ∧
    (2048 < max i.width i.height →
      ∀ r, normalizeImg b = .ok r →
        max r.width r.height = 2048 ∧
        ((r.width : ℚ) ≤ (i.width : ℚ) * 2048 / (max i.width i.height : ℚ) ∧
          (i.width : ℚ) * 2048 / (max i.width i.height : ℚ) < (r.width : ℚ) + 1) ∧
        ((r.height : ℚ) ≤ (i.height : ℚ) * 2048 / (max i.width i.height : ℚ) ∧
          (i.height : ℚ) * 2048 / (max i.width i.height : ℚ) < (r.height : ℚ) + 1)) := by
  constructor
  · intro hle
    unfold normalizeImg
    rw [hdec, exceptBindOk]
    unfold resizeStep
    rw [if_neg (by omega)]
    rw [exceptBindOk]
    simp [exceptPureEq, Except.map, (convertStep_size i).1, (convertStep_size i).2]
  · intro hgt r hr
    obtain ⟨hw, hh⟩ := normalizeImg_resized_dims b i hdec hgt r hr
    have hm0 : 0 < max i.width i.height := by omega
    have hwl : i.width ≤ max i.width i.height := le_max_left _ _
    have hhl : i.height ≤ max i.width i.height := le_max_right _ _
    have hwb := div_trunc_bounds (i.width * 2048) (max i.width i.height) hm0
    have hhb := div_trunc_bounds (i.height * 2048) (max i.width i.height) hm0
    push_cast at hwb hhb
    refine ⟨?_, ⟨?_, ?_⟩, ⟨?_, ?_⟩⟩
    · have hcancel : max i.width i.height * 2048 / max i.width i.height = 2048 :=
        Nat.mul_div_cancel_left 2048 hm0
      rcases max_choice i.width i.height with hc | hc
      · have hwv : r.width = 2048 := by rw [hw, hc, ← hc, hcancel]
        have hhv : r.height ≤ 2048 := by
          rw [hh]
          calc i.height * 2048 / max i.width i.height
              ≤ max i.width i.height * 2048 / max i.width i.height :=
                Nat.div_le_div_right (Nat.mul_le_mul_right 2048 hhl)
            _ = 2048 := hcancel
        rw [hwv]
        exact max_eq_left hhv
      · have hhv : r.height = 2048 := by rw [hh, hc, ← hc, hcancel]
        have hwv : r.width ≤ 2048 := by
          rw [hw]
          calc i.width * 2048 / max i.width i.height
              ≤ max i.width i.height * 2048 / max i.width i.height :=
                Nat.div_le_div_right (Nat.mul_le_mul_right 2048 hwl)
            _ = 2048 := hcancel
        rw [hhv]
        exact max_eq_right hwv
    · rw [hw]
      exact_mod_cast hwb.1
    · rw [hw]
      exact_mod_cast hwb.2
    · rw [hh]
      exact_mod_cast hhb.1
    · rw [hh]
      exact_mod_cast hhb.2

/-- C2 witness: a 4096x1024 JPEG is normalized to longer side exactly
2048. -/
theorem C2_resize_bound_witness :
    max bigResized.width bigResized.height = 2048 :=
  (((C2_resize_bound bigBytes bigImg rfl).2 (by decide)) bigResized rfl).1
